import Mathlib

/-!
# Verification of the `load` management command of `django-irs`

A shallow embedding of `irs/management/commands/load.py`: the per-cell
cleaning function (`RowParser.clean_cell`), row parsing (`RowParser.parse_row`),
record construction and admission filtering (`RowParser.create_contribution`,
`RowParser.create_object`), the batched-persistence row loop and the amendment
resolver of `Command.handle`.

Modelling conventions:
* Python values flowing through `parsed_row` are modelled by `Value`;
  a Python `None` is `Option.none`.
* The database tables touched by the command (`F8872`, `Committee`,
  `Contribution`, `Expenditure`) are modelled as lists in insertion order.
* The module-level globals (`CONTRIBUTIONS`, `EXPENDITURES`,
  `PARSED_FILING_IDS`) live in `RunState`.  A "run" is one execution of the
  management command in a fresh interpreter process, so the globals start at
  their module-initialisation values (empty).
* Standard-library calls (`datetime.strptime(_, s8)`, `int`, `decimal.Decimal`,
  `str.encode('ascii','ignore')`, `str.upper`) are modelled from their
  documented behaviour on the data shapes this program feeds them; the
  comments on each definition record the simplifications.
* A Python exception that the source does not catch is modelled by `Option`:
  `none` means the run aborts.
-/

/-- A Python `decimal.Decimal` value as produced by `Decimal(str)`:
either a finite number `coeff * 10 ^ exp`, an infinity, or a NaN.
(The `sNaN` spelling and underscore grouping accepted by CPython are not
modelled; no cell in the claims uses them.) -/
inductive PyDecimal where
  | num (coeff : Int) (exp : Int)
  | inf (neg : Bool)
  | nan
deriving DecidableEq, Repr

/-- A cleaned cell value, as stored into `parsed_row` by `clean_cell`. -/
inductive Value where
  | vDate (y m d : Nat)
  | vInt (i : Int)
  | vDec (d : PyDecimal)
  | vText (s : String)
  | vBool (b : Bool)
deriving DecidableEq, Repr

open Value

/-- A model record (a Django model instance): the attribute assignments made
so far, most recent first.  An attribute never assigned reads as `none`
(Django field default `null`). -/
structure PRecord where
  fields : List (String × Option Value)
deriving DecidableEq, Repr

/-- Attribute lookup on the assignment list: most recent assignment wins. -/
def lookupF : List (String × Option Value) → String → Option Value
  | [], _ => none
  | (m, v) :: rest, n => if n = m then v else lookupF rest n

def getField (r : PRecord) (n : String) : Option Value :=
  lookupF r.fields n

def setField (r : PRecord) (n : String) (v : Option Value) : PRecord :=
  ⟨(n, v) :: r.fields⟩

/-- The record with no attribute assigned. -/
def noRec : PRecord := ⟨[]⟩

/-! ## Cell cleaning (`RowParser.clean_cell`) -/

/-- `NULL_TERMS` from the source: raw-data phrases that mean "no value". -/
def NULL_TERMS : List String :=
  ["N/A", "NOT APPLICABLE", "NA", "NONE", "NOT APPLICABE", "NOT APLICABLE",
   "N A", "N-A"]

/-- `cell.encode('ascii', 'ignore').decode()`: drop every character whose
code point is not 7-bit ASCII. -/
def asciiOf (s : String) : List Char :=
  s.data.filter (fun c => c.toNat < 128)

/-- ASCII upper-casing of one character; after `asciiOf` every character is
ASCII, where Python `str.upper` acts exactly like this. -/
def asciiUp (c : Char) : Char :=
  if 'a' ≤ c ∧ c ≤ 'z' then Char.ofNat (c.toNat - 32) else c

/-- Python default `str.strip` whitespace (the ASCII part, which is all that
can remain after the ASCII filter). -/
def isPyWs (c : Char) : Bool :=
  c = ' ' ∨ c = '\t' ∨ c = '\n' ∨ c = '\r' ∨ c = '\x0b' ∨ c = '\x0c'

def stripWs (l : List Char) : List Char :=
  ((l.dropWhile isPyWs).reverse.dropWhile isPyWs).reverse

/-- Numeric value of a digit string (most significant first). -/
def natOfDigits (l : List Char) : Nat :=
  l.foldl (fun n c => 10 * n + (c.toNat - 48)) 0

/-- Gregorian leap year, as used by `datetime`. -/
def isLeap (y : Nat) : Bool :=
  y % 4 = 0 ∧ (y % 100 ≠ 0 ∨ y % 400 = 0)

def daysInMonth (y m : Nat) : Nat :=
  if m = 2 then (if isLeap y then 29 else 28)
  else if m = 4 ∨ m = 6 ∨ m = 9 ∨ m = 11 then 30
  else 31

/-- Domain of the model of `datetime.strptime(cell, f)` for the fixed
8-digit year-month-day format used by the source: exactly eight digits
spelling a valid Gregorian calendar date with year 1..9999. -/
def dateOK (c : List Char) : Bool :=
  decide (c.length = 8) && c.all Char.isDigit &&
    (let y := natOfDigits (c.take 4)
     let m := natOfDigits ((c.drop 4).take 2)
     let d := natOfDigits (c.drop 6)
     decide (1 ≤ y) && decide (y ≤ 9999) && decide (1 ≤ m) &&
       decide (m ≤ 12) && decide (1 ≤ d) && decide (d ≤ daysInMonth y m))

/-- Model of `datetime.strptime(cell, f)` with the 8-digit format: the parsed
calendar date, or `none` where CPython raises `ValueError` (swallowed by the
source's bare `except`). -/
def parseDate8 (c : List Char) : Option Value :=
  if dateOK c then
    some (vDate (natOfDigits (c.take 4)) (natOfDigits ((c.drop 4).take 2))
      (natOfDigits (c.drop 6)))
  else none

/-- Domain of `int(str)`: optional surrounding whitespace, an optional sign,
then one or more decimal digits. -/
def intOK (t : List Char) : Bool :=
  match t with
  | [] => false
  | c :: r =>
    if c = '+' ∨ c = '-' then !r.isEmpty && r.all Char.isDigit
    else (c :: r).all Char.isDigit

def intValOf (t : List Char) : Int :=
  match t with
  | '-' :: r => -(natOfDigits r : Int)
  | '+' :: r => (natOfDigits r : Int)
  | r => (natOfDigits r : Int)

/-- Model of Python `int(cell)`. -/
def pyInt (c : List Char) : Option Value :=
  let t := stripWs c
  if intOK t then some (vInt (intValOf t)) else none

/-- Leading-sign split used by the `Decimal` numeric-string grammar. -/
def signSplit : List Char → (Bool × List Char)
  | '+' :: r => (false, r)
  | '-' :: r => (true, r)
  | r => (false, r)

/-- Split a numeric string at the first exponent marker. -/
def splitExp : List Char → (List Char × Option (List Char))
  | [] => ([], none)
  | c :: r =>
    if c = 'e' ∨ c = 'E' then ([], some r)
    else
      let p := splitExp r
      (c :: p.1, p.2)

def upAll (l : List Char) : List Char := l.map asciiUp

/-- The special spellings `Decimal` accepts (case-insensitive):
infinities and NaN with an optional diagnostic digit payload. -/
def specialOK (u : List Char) : Bool :=
  let v := upAll u
  decide (v = "INF".data) || decide (v = "INFINITY".data) ||
    (match v with
     | 'N' :: 'A' :: 'N' :: rest => rest.all Char.isDigit
     | _ => false)

/-- Mantissa of a decimal numeric string: digits with at most one point and
at least one digit. -/
def mantOK (m : List Char) : Bool :=
  m.all (fun c => c.isDigit || c = '.') &&
    decide ((m.filter (fun c => c = '.')).length ≤ 1) && m.any Char.isDigit

def expPartOK (e : List Char) : Bool :=
  let p := signSplit e
  !p.2.isEmpty && p.2.all Char.isDigit

/-- Digits after the first point (the fractional digits). -/
def afterDot : List Char → List Char
  | [] => []
  | '.' :: r => r
  | _ :: r => afterDot r

/-- Domain of the model of `decimal.Decimal(cell)`. -/
def decOK (c : List Char) : Bool :=
  let t := stripWs c
  let su := signSplit t
  specialOK su.2 ||
    (let p := splitExp su.2
     mantOK p.1 && (match p.2 with | none => true | some e => expPartOK e))

/-- Model of `decimal.Decimal(cell)`: the exact base-10 value, or `none`
where CPython raises `InvalidOperation`. -/
def pyDecimal (c : List Char) : Option Value :=
  let t := stripWs c
  let su := signSplit t
  if specialOK su.2 then
    some (vDec
      (if decide (upAll su.2 = "INF".data) || decide (upAll su.2 = "INFINITY".data)
       then PyDecimal.inf su.1 else PyDecimal.nan))
  else
    let p := splitExp su.2
    let expVal : Int :=
      match p.2 with
      | none => 0
      | some e =>
        let se := signSplit e
        if se.1 then -(natOfDigits se.2 : Int) else (natOfDigits se.2 : Int)
    if mantOK p.1 && (match p.2 with | none => true | some e => expPartOK e) then
      let coeffN : Nat := natOfDigits (p.1.filter Char.isDigit)
      let coeff : Int := if su.1 then -(coeffN : Int) else (coeffN : Int)
      some (vDec (PyDecimal.num coeff (expVal - ((afterDot p.1).length : Int))))
    else none

/-- `RowParser.clean_cell`, translated branch for branch.  The source wraps
the whole body in `try: ... except: cell = None`; each library call that can
raise is modelled by an `Option`-valued parser, so a parse failure yields
`none` exactly where the source's bare `except` does. -/
def clean_cell (cell : String) (cell_type : String) : Option Value :=
  let c := asciiOf cell
  if cell_type = "D" then parseDate8 c
  else if cell_type = "I" then pyInt c
  else if cell_type = "N" then pyDecimal c
  else
    let u := (upAll c).take 50
    let s := String.mk u
    if s = "" ∨ s ∈ NULL_TERMS then none else some (vText s)

/-! ## Row parsing (`RowParser.parse_row`) -/

/-- One field-position mapping (one of the external CSV schema tables):
the `(model_name, field_type)` pairs in column order.  The source keys the
mapping by the decimal string of the position; positions in the CSVs are
contiguous from 0, which a plain list captures. -/
def Mapping := List (String × String)

/-- `RowParser.parse_row`: `for i, cell in enumerate(row[0:len(fields)])`,
assigning `parsed_row[field_name] = clean_cell(cell, field_type)`; a later
assignment of the same name overwrites an earlier one. -/
def parse_row (mapping : Mapping) (row : List String) : PRecord :=
  (row.zip mapping).foldl
    (fun r p => setField r p.2.1 (clean_cell p.1 p.2.2)) noRec

/-! ## Database and run state -/

/-- The four tables the command touches, in insertion order.
A `Committee` row is its `(EIN, name)` pair; per the data model the committee
table is keyed by `EIN`, so a committee's primary key is its `EIN` value. -/
structure StoreDB where
  filings : List PRecord
  committees : List (Option Value × Option Value)
  contributions : List PRecord
  expenditures : List PRecord
deriving DecidableEq, Repr

def emptyStoreDB : StoreDB :=
  { filings := [], committees := [], contributions := [], expenditures := [] }

/-- The mutable state of one command process: the database plus the
module-level globals `CONTRIBUTIONS`, `EXPENDITURES`, `PARSED_FILING_IDS`. -/
structure RunState where
  db : StoreDB
  contribBuf : List PRecord
  expendBuf : List PRecord
  filingIds : List (Option Value)
deriving DecidableEq, Repr

/-- `PARSED_FILING_IDS.add`: Python set insertion, modelled as a
membership-tested append. -/
def addId (ids : List (Option Value)) (x : Option Value) : List (Option Value) :=
  if x ∈ ids then ids else ids ++ [x]

/-- Python truthiness of an attribute value, as used by
`if PARSE_PEOPLE and contribution.contributor_name`. -/
def isTruthy : Option Value → Bool
  | none => false
  | some (vText s) => s ≠ ""
  | some (vInt i) => i ≠ 0
  | some (vDate _ _ _) => true
  | some (vDec (PyDecimal.num c _)) => c ≠ 0
  | some (vDec _) => true
  | some (vBool b) => b

/-- Outcome of `probablepeople.tag` on one name.  The library is an external
collaborator; per the design notes it is abstracted as a classifier that
either returns the tagged parts and an entity-type label, raises
`RepeatedLabelError`, or raises some other exception. -/
inductive ClassifyOutcome where
  | tagged (parts : List (String × String)) (etype : String)
  | repeatedLabelError
  | otherError

/-- `dict.get` on the tagged-parts dictionary. -/
def lookupS : List (String × String) → String → Option String
  | [], _ => none
  | (m, v) :: rest, n => if n = m then some v else lookupS rest n

/-- Python `a or b` where `a` is an optional string: `b` when `a` is `None`
or the empty string. -/
def pyOrStr (a b : Option String) : Option String :=
  match a with
  | some s => if s = "" then b else some s
  | none => b

/-! ## Record construction (`RowParser.create_contribution` /
`RowParser.create_object`) -/

/-- A contribution or expenditure record after the foreign keys are set:
`filing_id = form_id_number`, `committee_id = EIN`. -/
def childRec (mapping : Mapping) (row : List String) : PRecord :=
  let pr := parse_row mapping row
  setField (setField pr "filing_id" (getField pr "form_id_number"))
    "committee_id" (getField pr "EIN")

/-- The name-tagging block of `create_contribution`, entered when
`PARSE_PEOPLE` is on and the contributor name is truthy.  `none` models the
uncaught propagation of an exception other than `RepeatedLabelError`. -/
def tagContribution (classify : Value → ClassifyOutcome) (v : Value)
    (r : PRecord) : Option PRecord :=
  match classify v with
  | ClassifyOutcome.tagged parts etype =>
    let r1 := setField r "entity_type" (some (vText etype))
    some
      (if etype = "Person" ∨ etype = "Household" then
        setField
          (setField
            (setField r1 "contributor_first_name"
              ((lookupS parts "GivenName").map vText))
            "contributor_middle_name"
            ((pyOrStr (lookupS parts "MiddleName")
              (lookupS parts "MiddleInitial")).map vText))
          "contributor_last_name" ((lookupS parts "Surname").map vText)
      else if etype = "Corporation" then
        setField r1 "contributor_corporation_name"
          ((lookupS parts "CorporationName").map vText)
      else r1)
  | ClassifyOutcome.repeatedLabelError => some r
  | ClassifyOutcome.otherError => none

/-- `RowParser.create_contribution`. -/
def create_contribution (classify : Value → ClassifyOutcome)
    (parse_people : Bool) (mapping : Mapping) (row : List String)
    (s : RunState) : Option RunState :=
  let pr := parse_row mapping row
  if getField pr "form_id_number" ∈ s.filingIds then
    let r := childRec mapping row
    if parse_people ∧ isTruthy (getField r "contributor_name") then
      match getField r "contributor_name" with
      | some v =>
        match tagContribution classify v r with
        | some r2 => some { s with contribBuf := s.contribBuf ++ [r2] }
        | none => none
      | none => some { s with contribBuf := s.contribBuf ++ [r] }
    else some { s with contribBuf := s.contribBuf ++ [r] }
  else some s

/-- The expenditure branch of `RowParser.create_object`. -/
def create_expenditure (mapping : Mapping) (row : List String)
    (s : RunState) : RunState :=
  let pr := parse_row mapping row
  if getField pr "form_id_number" ∈ s.filingIds then
    { s with expendBuf := s.expendBuf ++ [childRec mapping row] }
  else s

/-- The filing branch of `RowParser.create_object`: register the filing id,
get-or-create the committee (setting its name when created), point the
filing at the committee (whose key is its `EIN`), and save the filing. -/
def create_filing (mapping : Mapping) (row : List String)
    (s : RunState) : RunState :=
  let pr := parse_row mapping row
  let fid := getField pr "form_id_number"
  let ein := getField pr "EIN"
  let ids := addId s.filingIds fid
  let committees :=
    if s.db.committees.any (fun c => c.1 = ein) then s.db.committees
    else s.db.committees ++ [(ein, getField pr "organization_name")]
  let f := setField pr "committee_id" ein
  { s with
    filingIds := ids
    db := { s.db with
      committees := committees
      filings := s.db.filings ++ [f] } }

/-! ## The row loop of `Command.handle` -/

/-- The buffer-threshold flush performed at the top of every loop
iteration: `if len(CONTRIBUTIONS) > 5000: bulk_create; []` and likewise for
expenditures. -/
def flushBuffers (s : RunState) : RunState :=
  let s1 :=
    if s.contribBuf.length > 5000 then
      { s with
        db := { s.db with contributions := s.db.contributions ++ s.contribBuf }
        contribBuf := [] }
    else s
  if s1.expendBuf.length > 5000 then
    { s1 with
      db := { s1.db with expenditures := s1.db.expenditures ++ s1.expendBuf }
      expendBuf := [] }
  else s1

/-- One iteration of `for row in reader`: threshold flush, then dispatch on
`row[0]`.  An empty row makes `row[0]` raise `IndexError`, which the
enclosing `except IndexError: pass` swallows; an unrecognised discriminator
falls through all branches.  Exceptions other than `IndexError` (the
untagged-classifier case) propagate: `none`. -/
structure Mappings where
  f8872 : Mapping
  sa : Mapping
  sb : Mapping

def processRow (maps : Mappings) (classify : Value → ClassifyOutcome)
    (parse_people : Bool) (s : RunState) (row : List String) :
    Option RunState :=
  let s := flushBuffers s
  match row.head? with
  | none => some s
  | some ft =>
    if ft = "2" then some (create_filing maps.f8872 row s)
    else if ft = "A" then create_contribution classify parse_people maps.sa row s
    else if ft = "B" then create_expenditure maps.sb row s
    else some s

/-- The whole row loop over the input file, row by row in file order;
an uncaught exception in any iteration aborts the loop. -/
def processAll (maps : Mappings) (classify : Value → ClassifyOutcome)
    (parse_people : Bool) : RunState → List (List String) → Option RunState
  | s, [] => some s
  | s, row :: rest =>
    match processRow maps classify parse_people s row with
    | none => none
    | some s1 => processAll maps classify parse_people s1 rest

/-! ## Amendment resolution -/

/-- SQL comparison of two stored values for the `form_id_number__lt` filter;
a NULL on either side never matches. -/
def valueLt : Value → Value → Bool
  | vInt a, vInt b => a < b
  | vText a, vText b => a < b
  | vDate y m d, vDate y' m' d' =>
    y < y' ∨ (y = y' ∧ (m < m' ∨ (m = m' ∧ d < d')))
  | vDec (PyDecimal.num c e), vDec (PyDecimal.num c' e') =>
    let k := min e e'
    c * (10 : Int) ^ (e - k).toNat < c' * (10 : Int) ^ (e' - k).toNat
  | vBool a, vBool b => !a && b
  | _, _ => false

def optLt (a b : Option Value) : Bool :=
  match a, b with
  | some x, some y => valueLt x y
  | _, _ => false

/-- The `previous_filings` filter for one amending filing `a`:
`committee_id=a.EIN, begin_date=a.begin_date, end_date=a.end_date,
form_id_number__lt=a.form_id_number`. -/
def targets (a f : PRecord) : Bool :=
  decide (getField f "committee_id" = getField a "EIN") &&
    decide (getField f "begin_date" = getField a "begin_date") &&
    decide (getField f "end_date" = getField a "end_date") &&
    optLt (getField f "form_id_number") (getField a "form_id_number")

/-- `previous_filings.update(is_amended=True, amended_by_id=...)` applied to
one row. -/
def markAmended (f : PRecord) (byId : Option Value) : PRecord :=
  setField (setField f "is_amended" (some (vBool true))) "amended_by_id" byId

/-- `F8872.objects.filter(amended_report_indicator=1)`. -/
def amenders (fs : List PRecord) : List PRecord :=
  fs.filter (fun f => decide (getField f "amended_report_indicator" = some (vInt 1)))

/-- One pass of the resolver loop body for amending filing `a`. -/
def updOne (a : PRecord) (cur : List PRecord) : List PRecord :=
  cur.map (fun f =>
    if targets a f then markAmended f (getField a "form_id_number") else f)

/-- The resolver loop of `Command.handle`: the amending filings are fetched
once (updates never touch the fields the filters read), then each performs
its bulk update in turn. -/
def resolveAmendments (fs : List PRecord) : List PRecord :=
  (amenders fs).foldl (fun cur a => updOne a cur) fs

/-! ## The whole run (`Command.handle`) -/

/-- The state at the start of the parsing phase: the four tables are
deleted, and the process-global buffers and `PARSED_FILING_IDS` hold their
module-initialisation values (a command run is one fresh process). -/
def initRunState (db : StoreDB) : RunState :=
  { db := { db with
      filings := [], committees := [], contributions := [], expenditures := [] }
    contribBuf := []
    expendBuf := []
    filingIds := [] }

/-- `Command.handle` from the empty-file check onward: abort on an empty
file, delete all stored records, run the row loop, then resolve amendments.
Note that the source performs no flush of the contribution/expenditure
buffers after the loop; whatever the loop left buffered is not written. -/
def runload (maps : Mappings) (classify : Value → ClassifyOutcome)
    (parse_people : Bool) (db : StoreDB) (file : List (List String)) :
    Option StoreDB :=
  if file.isEmpty then none
  else
    match processAll maps classify parse_people (initRunState db) file with
    | none => none
    | some s => some { s.db with filings := resolveAmendments s.db.filings }

/-! ## Concrete instances used by witnesses and counterexamples -/

/-- Modelled from the spec: the three external mapping CSV files
(`irs/management/mappings/{F8872,sa,sb}.csv`) are not among the given
sources.  These small mappings follow the spec's field lists for each record
kind (a leading discriminator column, `form_id_number` and `EIN` keys, the
reporting period and amendment flag for filings, name/amount/date fields for
the itemised records). -/
def mapsEx : Mappings :=
  { f8872 := [("form_type", "T"), ("form_id_number", "I"), ("EIN", "T"),
      ("organization_name", "T"), ("begin_date", "D"), ("end_date", "D"),
      ("amended_report_indicator", "I")]
    sa := [("form_type", "T"), ("form_id_number", "I"), ("EIN", "T"),
      ("contributor_name", "T"), ("contribution_amount", "N"),
      ("contribution_date", "D")]
    sb := [("form_type", "T"), ("form_id_number", "I"), ("EIN", "T"),
      ("recipient_name", "T"), ("expenditure_amount", "N"),
      ("expenditure_date", "D")] }

/-- A classifier that always raises `RepeatedLabelError` (used where the
classifier is irrelevant because name parsing is off). -/
def classify0 : Value → ClassifyOutcome := fun _ => ClassifyOutcome.repeatedLabelError

/-- A classifier that always raises an exception other than
`RepeatedLabelError`. -/
def classifyErr : Value → ClassifyOutcome := fun _ => ClassifyOutcome.otherError

def row2_1 : List String := ["2", "1", "EIN1", "ORG ONE", "20200101", "20200331", "0"]
def row2_2 : List String := ["2", "2", "EIN1", "ORG ONE", "20200101", "20200331", "1"]
def row2_3 : List String := ["2", "3", "EIN1", "ORG ONE", "20200101", "20200331", "1"]
def rowA_1 : List String := ["A", "1", "EIN1", "JOHN SMITH", "999.99", "20200215"]

/-- A filing row whose `form_id_number` cell is not a parseable integer, so
the cleaned identifier is `None`. -/
def row2bad : List String := ["2", "XX", "EIN9", "ORG BAD", "20200101", "20200331", "0"]

/-- A contribution row whose `form_id_number` cell also cleans to `None`. -/
def rowAbad : List String := ["A", "YY", "EIN9", "JANE DOE", "1.00", "20200215"]

/-- An expenditure row whose `form_id_number` cell also cleans to `None`. -/
def rowBbad : List String := ["B", "ZZ", "EIN9", "VENDOR X", "2.00", "20200301"]

/-! ## Record lemmas -/

theorem getField_setField_same (r : PRecord) (n : String) (v : Option Value) :
    getField (setField r n v) n = v := by
  simp [getField, setField, lookupF]

theorem getField_setField_ne (r : PRecord) (m n : String) (v : Option Value)
    (h : n ≠ m) : getField (setField r m v) n = getField r n := by
  simp [getField, setField, lookupF, h]

/-! ## C6, C7, C8: cell cleaning -/

/-- C7: a text cell whose stripped, upper-cased and truncated form is empty
or one of the `NULL_TERMS` sentinels cleans to null rather than to the
literal text. -/
theorem C7_null_sentinels (cell : String)
    (h : String.mk ((upAll (asciiOf cell)).take 50) = "" ∨
         String.mk ((upAll (asciiOf cell)).take 50) ∈ NULL_TERMS) :
    clean_cell cell "T" = none := by
  simp only [clean_cell, String.reduceEq, if_false, reduceIte]
  rw [if_pos h]

theorem C7_witness : clean_cell "n/a" "T" = none :=
  C7_null_sentinels "n/a" (by decide)

/-- C8: a text cell whose stripped, upper-cased form exceeds 50 characters
cleans to exactly its first 50 characters (length 50, a prefix of the
upper-cased text). -/
theorem C8_truncation (cell : String)
    (h : 50 < (upAll (asciiOf cell)).length) :
    clean_cell cell "T" = some (vText (String.mk ((upAll (asciiOf cell)).take 50))) ∧
    (String.mk ((upAll (asciiOf cell)).take 50)).length = 50 ∧
    ∃ rest, upAll (asciiOf cell) = (upAll (asciiOf cell)).take 50 ++ rest := by
  have hlen : ((upAll (asciiOf cell)).take 50).length = 50 := by
    rw [List.length_take]; omega
  have hslen : (String.mk ((upAll (asciiOf cell)).take 50)).length = 50 := hlen
  have hne : ¬ (String.mk ((upAll (asciiOf cell)).take 50) = "" ∨
      String.mk ((upAll (asciiOf cell)).take 50) ∈ NULL_TERMS) := by
    rintro (he | hm)
    · rw [he] at hslen
      simp [String.length] at hslen
    · have hsmall : ∀ t ∈ NULL_TERMS, t.length < 50 := by decide
      have := hsmall _ hm
      omega
  refine ⟨?_, hslen, ⟨(upAll (asciiOf cell)).drop 50,
    (List.take_append_drop 50 _).symm⟩⟩
  simp only [clean_cell, String.reduceEq, if_false, reduceIte]
  rw [if_neg hne]

theorem C8_witness :
    clean_cell "this cell is much longer than fifty characters in total length" "T" =
      some (vText "THIS CELL IS MUCH LONGER THAN FIFTY CHARACTERS IN " ) ∧
    (50 < (upAll (asciiOf "this cell is much longer than fifty characters in total length")).length ∧
      (String.mk ((upAll (asciiOf "this cell is much longer than fifty characters in total length")).take 50)).length = 50) := by
  have h : 50 < (upAll (asciiOf "this cell is much longer than fifty characters in total length")).length := by decide
  have h2 := C8_truncation "this cell is much longer than fifty characters in total length" h
  exact ⟨by rw [h2.1]; decide, h, h2.2.1⟩

/-- C6: the cleaning function is total (it is a function into `Option`), and
on every malformed date, integer or decimal cell it yields null: the model
of each library parser returns `none` exactly where CPython raises, and the
source's blanket exception handler turns that into a null cell. -/
theorem C6_clean_failure_null (cell : String) :
    (dateOK (asciiOf cell) = false → clean_cell cell "D" = none) ∧
    (intOK (stripWs (asciiOf cell)) = false → clean_cell cell "I" = none) ∧
    (decOK (asciiOf cell) = false → clean_cell cell "N" = none) := by
  refine ⟨fun hd => ?_, fun hi => ?_, fun hn => ?_⟩
  · simp only [clean_cell, String.reduceEq, reduceIte, parseDate8, hd,
      Bool.false_eq_true, if_false]
  · simp only [clean_cell, String.reduceEq, reduceIte, pyInt, hi,
      Bool.false_eq_true, if_false]
  · simp only [clean_cell, String.reduceEq, reduceIte, pyDecimal]
    simp only [decOK, Bool.or_eq_false_iff, Bool.and_eq_false_iff] at hn
    rw [if_neg, if_neg]
    · rcases hn.2 with h | h
      · simp [h]
      · intro hc
        rcases p : (splitExp (signSplit (stripWs (asciiOf cell))).2).2 with _ | e
        · simp [p] at h
        · simp [p] at h hc
          exact absurd hc.2 (by simp [h])
    · simp [hn.1]

theorem C6_witness :
    clean_cell "12X" "D" = none ∧ clean_cell "12X" "I" = none ∧
      clean_cell "12X" "N" = none :=
  ⟨(C6_clean_failure_null "12X").1 (by decide),
   (C6_clean_failure_null "12X").2.1 (by decide),
   (C6_clean_failure_null "12X").2.2 (by decide)⟩

/-! ## Run-state lemmas -/

theorem flushBuffers_filingIds (s : RunState) :
    (flushBuffers s).filingIds = s.filingIds := by
  simp only [flushBuffers]
  split <;> split <;> rfl

theorem mem_addId_self (ids : List (Option Value)) (x : Option Value) :
    x ∈ addId ids x := by
  simp only [addId]
  split
  · assumption
  · simp

theorem mem_addId_of_mem (ids : List (Option Value)) (x y : Option Value)
    (h : x ∈ ids) : x ∈ addId ids y := by
  simp only [addId]
  split
  · exact h
  · simp [h]

theorem mem_addId_cases (ids : List (Option Value)) (x y : Option Value)
    (h : x ∈ addId ids y) : x ∈ ids ∨ x = y := by
  simp only [addId] at h
  split at h
  · exact Or.inl h
  · simpa using h

theorem create_expenditure_filingIds (mapping : Mapping) (row : List String)
    (s : RunState) : (create_expenditure mapping row s).filingIds = s.filingIds := by
  simp only [create_expenditure]
  split <;> rfl

theorem create_filing_filingIds (mapping : Mapping) (row : List String)
    (s : RunState) : (create_filing mapping row s).filingIds =
      addId s.filingIds (getField (parse_row mapping row) "form_id_number") := rfl

theorem create_contribution_filingIds (classify : Value → ClassifyOutcome)
    (pp : Bool) (mapping : Mapping) (row : List String) (s s' : RunState)
    (h : create_contribution classify pp mapping row s = some s') :
    s'.filingIds = s.filingIds := by
  simp only [create_contribution] at h
  repeat' split at h
  all_goals first
    | (injection h with h; subst h; rfl)
    | injection h

/-- The effect of one loop iteration on `PARSED_FILING_IDS`: either
untouched, or (for a filing row) extended with that row's cleaned
`form_id_number`. -/
theorem processRow_filingIds (maps : Mappings) (classify : Value → ClassifyOutcome)
    (pp : Bool) (s : RunState) (row : List String) (s' : RunState)
    (h : processRow maps classify pp s row = some s') :
    s'.filingIds = s.filingIds ∨
      (row.head? = some "2" ∧ s'.filingIds =
        addId s.filingIds (getField (parse_row maps.f8872 row) "form_id_number")) := by
  cases hr : row.head? with
  | none =>
    simp only [processRow, hr] at h
    injection h with h; subst h
    exact Or.inl (flushBuffers_filingIds s)
  | some ft =>
    simp only [processRow, hr] at h
    by_cases h2 : ft = "2"
    · subst h2
      simp only [if_pos rfl] at h
      injection h with h; subst h
      refine Or.inr ⟨rfl, ?_⟩
      rw [create_filing_filingIds, flushBuffers_filingIds]
    · rw [if_neg h2] at h
      by_cases hA : ft = "A"
      · subst hA
        rw [if_pos rfl] at h
        left
        rw [create_contribution_filingIds classify pp maps.sa row _ _ h,
          flushBuffers_filingIds]
      · rw [if_neg hA] at h
        by_cases hB : ft = "B"
        · subst hB
          rw [if_pos rfl] at h
          injection h with h; subst h
          left
          rw [create_expenditure_filingIds, flushBuffers_filingIds]
        · rw [if_neg hB] at h
          injection h with h; subst h
          exact Or.inl (flushBuffers_filingIds s)

theorem processRow_filingIds_mono (maps : Mappings)
    (classify : Value → ClassifyOutcome) (pp : Bool) (s : RunState)
    (row : List String) (s' : RunState)
    (h : processRow maps classify pp s row = some s') :
    ∀ x ∈ s.filingIds, x ∈ s'.filingIds := by
  intro x hx
  rcases processRow_filingIds maps classify pp s row s' h with he | ⟨_, he⟩
  · rw [he]; exact hx
  · rw [he]; exact mem_addId_of_mem _ _ _ hx

theorem processAll_filingIds_mono (maps : Mappings)
    (classify : Value → ClassifyOutcome) (pp : Bool) :
    ∀ (rows : List (List String)) (s s' : RunState),
      processAll maps classify pp s rows = some s' →
      ∀ x ∈ s.filingIds, x ∈ s'.filingIds := by
  intro rows
  induction rows with
  | nil =>
    intro s s' h x hx
    simp only [processAll] at h
    injection h with h; subst h
    exact hx
  | cons r rs ih =>
    intro s s' h x hx
    cases hp : processRow maps classify pp s r with
    | none =>
      simp only [processAll, hp] at h
      exact Option.noConfusion h
    | some s1 =>
      simp only [processAll, hp] at h
      exact ih s1 s' h x (processRow_filingIds_mono maps classify pp s r s1 hp x hx)

/-! ## Shared concrete states for witnesses -/

def s0Ex : RunState := initRunState emptyStoreDB

def s1Ex : RunState := (processRow mapsEx classify0 false s0Ex row2_1).getD s0Ex

def s2Bad : RunState := (processRow mapsEx classify0 false s0Ex row2bad).getD s0Ex

/-! ## C2: admission filtering of child rows -/

/-- C2: a contribution or expenditure row whose cleaned `form_id_number` is
not in `PARSED_FILING_IDS` when the row is processed changes nothing beyond
the iteration's threshold flush of previously buffered records: no record
for that row is buffered or stored, and no error is raised (the iteration
yields a successor state). -/
theorem C2_unadmitted_child_discarded (maps : Mappings)
    (classify : Value → ClassifyOutcome) (pp : Bool) (s : RunState)
    (row : List String)
    (h : (row.head? = some "A" ∧
            getField (parse_row maps.sa row) "form_id_number" ∉ s.filingIds) ∨
         (row.head? = some "B" ∧
            getField (parse_row maps.sb row) "form_id_number" ∉ s.filingIds)) :
    processRow maps classify pp s row = some (flushBuffers s) := by
  rcases h with ⟨hh, hm⟩ | ⟨hh, hm⟩
  · simp only [processRow, hh, String.reduceEq, reduceIte]
    simp only [create_contribution, flushBuffers_filingIds]
    rw [if_neg hm]
  · simp only [processRow, hh, String.reduceEq, reduceIte]
    simp only [create_expenditure, flushBuffers_filingIds]
    rw [if_neg hm]

theorem C2_witness :
    processRow mapsEx classify0 false s0Ex rowA_1 = some (flushBuffers s0Ex) :=
  C2_unadmitted_child_discarded mapsEx classify0 false s0Ex rowA_1
    (Or.inl ⟨rfl, by decide⟩)

/-! ## C4: lifecycle of `PARSED_FILING_IDS` -/

/-- C4: at the start of a run the admission filter is empty and the four
tables are deleted together; during the run each iteration only preserves or
extends the filter, and any identifier that appears was contributed by a
filing (`"2"`) row as its cleaned `form_id_number`. -/
theorem C4_admission_filter_lifecycle :
    (∀ db : StoreDB, (initRunState db).filingIds = [] ∧
      (initRunState db).db = emptyStoreDB) ∧
    (∀ (maps : Mappings) (classify : Value → ClassifyOutcome) (pp : Bool)
      (s : RunState) (row : List String) (s' : RunState),
      processRow maps classify pp s row = some s' →
      (∀ x ∈ s.filingIds, x ∈ s'.filingIds) ∧
      (∀ x ∈ s'.filingIds, x ∈ s.filingIds ∨
        (row.head? = some "2" ∧
          x = getField (parse_row maps.f8872 row) "form_id_number"))) := by
  constructor
  · intro db
    exact ⟨rfl, by cases db; rfl⟩
  · intro maps classify pp s row s' h
    refine ⟨processRow_filingIds_mono maps classify pp s row s' h, ?_⟩
    intro x hx
    rcases processRow_filingIds maps classify pp s row s' h with he | ⟨h2, he⟩
    · rw [he] at hx
      exact Or.inl hx
    · rw [he] at hx
      rcases mem_addId_cases _ _ _ hx with hin | heq
      · exact Or.inl hin
      · exact Or.inr ⟨h2, heq⟩

theorem C4_witness :
    (initRunState emptyStoreDB).filingIds = [] ∧
    (∀ x ∈ s0Ex.filingIds, x ∈ s1Ex.filingIds) ∧
    (∀ x ∈ s1Ex.filingIds, x ∈ s0Ex.filingIds ∨
      (row2_1.head? = some "2" ∧
        x = getField (parse_row mapsEx.f8872 row2_1) "form_id_number")) := by
  have h := C4_admission_filter_lifecycle.2 mapsEx classify0 false s0Ex row2_1
    s1Ex rfl
  exact ⟨(C4_admission_filter_lifecycle.1 emptyStoreDB).1, h.1, h.2⟩

/-! ## C10: a filing with a null identifier admits null-keyed children -/

theorem getField_childRec_other (mapping : Mapping) (row : List String)
    (n : String) (h1 : n ≠ "committee_id") (h2 : n ≠ "filing_id") :
    getField (childRec mapping row) n = getField (parse_row mapping row) n := by
  simp only [childRec]
  rw [getField_setField_ne _ _ _ _ h1, getField_setField_ne _ _ _ _ h2]

/-- C10: a filing row whose `form_id_number` cell cleans to `None` still
registers `None` in the admission filter; the filter only grows afterwards;
and a later contribution or expenditure row whose own `form_id_number`
cleans to `None` is then admitted and buffered with a null `filing_id`. -/
theorem C10_null_id_children_admitted :
    (∀ (maps : Mappings) (classify : Value → ClassifyOutcome) (pp : Bool)
      (s : RunState) (row : List String) (s' : RunState),
      row.head? = some "2" →
      getField (parse_row maps.f8872 row) "form_id_number" = none →
      processRow maps classify pp s row = some s' →
      none ∈ s'.filingIds) ∧
    (∀ (maps : Mappings) (classify : Value → ClassifyOutcome) (pp : Bool)
      (rows : List (List String)) (s s' : RunState),
      processAll maps classify pp s rows = some s' →
      ∀ x ∈ s.filingIds, x ∈ s'.filingIds) ∧
    (∀ (maps : Mappings) (classify : Value → ClassifyOutcome)
      (s : RunState) (row : List String),
      row.head? = some "A" →
      getField (parse_row maps.sa row) "form_id_number" = none →
      none ∈ s.filingIds →
      processRow maps classify false s row =
        some { flushBuffers s with
          contribBuf := (flushBuffers s).contribBuf ++ [childRec maps.sa row] } ∧
      getField (childRec maps.sa row) "filing_id" = none) ∧
    (∀ (maps : Mappings) (classify : Value → ClassifyOutcome) (pp : Bool)
      (s : RunState) (row : List String),
      row.head? = some "B" →
      getField (parse_row maps.sb row) "form_id_number" = none →
      none ∈ s.filingIds →
      processRow maps classify pp s row =
        some { flushBuffers s with
          expendBuf := (flushBuffers s).expendBuf ++ [childRec maps.sb row] } ∧
      getField (childRec maps.sb row) "filing_id" = none) := by
  refine ⟨?_, ?_, ?_, ?_⟩
  · intro maps classify pp s row s' hrow hfid h
    simp only [processRow, hrow, String.reduceEq, reduceIte] at h
    injection h with h
    subst h
    rw [create_filing_filingIds, flushBuffers_filingIds, hfid]
    exact mem_addId_self _ _
  · intro maps classify pp rows s s' h
    exact processAll_filingIds_mono maps classify pp rows s s' h
  · intro maps classify s row hrow hfid hmem
    constructor
    · simp only [processRow, hrow, String.reduceEq, reduceIte]
      simp only [create_contribution, flushBuffers_filingIds]
      rw [hfid, if_pos hmem]
      simp
    · simp only [childRec]
      rw [getField_setField_ne _ _ _ _ (by decide), getField_setField_same]
      exact hfid
  · intro maps classify pp s row hrow hfid hmem
    constructor
    · simp only [processRow, hrow, String.reduceEq, reduceIte]
      simp only [create_expenditure, flushBuffers_filingIds]
      rw [hfid, if_pos hmem]
    · simp only [childRec]
      rw [getField_setField_ne _ _ _ _ (by decide), getField_setField_same]
      exact hfid

theorem C10_witness :
    none ∈ s2Bad.filingIds ∧
    (processRow mapsEx classify0 false s2Bad rowAbad =
      some { flushBuffers s2Bad with
        contribBuf := (flushBuffers s2Bad).contribBuf ++ [childRec mapsEx.sa rowAbad] } ∧
     getField (childRec mapsEx.sa rowAbad) "filing_id" = none) ∧
    (processRow mapsEx classify0 false s2Bad rowBbad =
      some { flushBuffers s2Bad with
        expendBuf := (flushBuffers s2Bad).expendBuf ++ [childRec mapsEx.sb rowBbad] } ∧
     getField (childRec mapsEx.sb rowBbad) "filing_id" = none) := by
  refine ⟨?_, ?_, ?_⟩
  · exact C10_null_id_children_admitted.1 mapsEx classify0 false s0Ex row2bad
      s2Bad rfl (by decide) rfl
  · exact C10_null_id_children_admitted.2.2.1 mapsEx classify0 s2Bad rowAbad rfl
      (by decide) (by decide)
  · exact C10_null_id_children_admitted.2.2.2 mapsEx classify0 false s2Bad
      rowBbad rfl (by decide) (by decide)

/-! ## C5: re-running the pipeline -/

/-- The final state of a run does not depend on the database contents at
invocation: the run starts by deleting every stored record of all four
kinds. -/
theorem runload_db_irrelevant (maps : Mappings)
    (classify : Value → ClassifyOutcome) (pp : Bool) (db db' : StoreDB)
    (file : List (List String)) :
    runload maps classify pp db file = runload maps classify pp db' file := by
  cases db
  cases db'
  rfl

/-- C5: a completed run is idempotent: running the pipeline again on the
same input file from the state the first run produced yields that same
state. -/
theorem C5_rerun_idempotent (maps : Mappings)
    (classify : Value → ClassifyOutcome) (pp : Bool) (db d1 : StoreDB)
    (file : List (List String))
    (h : runload maps classify pp db file = some d1) :
    runload maps classify pp d1 file = some d1 := by
  rw [runload_db_irrelevant maps classify pp d1 db]
  exact h

def d1Ex : StoreDB := (runload mapsEx classify0 false emptyStoreDB [row2_1]).getD emptyStoreDB

theorem C5_witness : runload mapsEx classify0 false d1Ex [row2_1] = some d1Ex :=
  C5_rerun_idempotent mapsEx classify0 false emptyStoreDB d1Ex [row2_1] rfl

/-! ## C1: no end-of-file flush of the buffers -/

/-- C1 (divergence from the spec): after the admitted contribution of
`rowA_1` is parsed and buffered, the loop ends with one record still in the
contribution buffer, and the run's final stored contribution table is
empty — `Command.handle` performs no bulk create after the loop, so the
buffered remainder is never persisted. -/
theorem C1_missing_final_flush :
    (processAll mapsEx classify0 false s0Ex [row2_1, rowA_1]).map
      (fun s => s.contribBuf.length) = some 1 ∧
    (runload mapsEx classify0 false emptyStoreDB [row2_1, rowA_1]).map
      (fun db => db.contributions) = some [] :=
  ⟨rfl, rfl⟩

/-! ## C9: classifier failures -/

/-- C9 (counterexample to the claim as stated): with name parsing enabled
and a classifier that fails with an exception other than
`RepeatedLabelError` on an admitted contribution with a non-empty name, the
run aborts — the row is not kept. -/
theorem C9_counterexample :
    processAll mapsEx classifyErr true s0Ex [row2_1, rowA_1] = none ∧
    isTruthy (getField (childRec mapsEx.sa rowA_1) "contributor_name") = true ∧
    getField (parse_row mapsEx.sa rowA_1) "form_id_number" ∈ s1Ex.filingIds :=
  ⟨rfl, rfl, by decide⟩

/-- C9 (amended): with name parsing enabled, a `RepeatedLabelError` from the
classifier is recovered locally: the row is still buffered, and the
record's decomposed name fields are exactly those of the parsed row —
untouched by the tagging machinery (hence null whenever the mapping does
not assign them, which none does). -/
theorem C9_repeated_label_recovered (maps : Mappings)
    (classify : Value → ClassifyOutcome) (s : RunState) (row : List String)
    (v : Value)
    (hrow : row.head? = some "A")
    (hadm : getField (parse_row maps.sa row) "form_id_number" ∈ s.filingIds)
    (hname : getField (childRec maps.sa row) "contributor_name" = some v)
    (htr : isTruthy (some v) = true)
    (hcl : classify v = ClassifyOutcome.repeatedLabelError) :
    processRow maps classify true s row =
      some { flushBuffers s with
        contribBuf := (flushBuffers s).contribBuf ++ [childRec maps.sa row] } ∧
    getField (childRec maps.sa row) "contributor_first_name" =
      getField (parse_row maps.sa row) "contributor_first_name" ∧
    getField (childRec maps.sa row) "contributor_middle_name" =
      getField (parse_row maps.sa row) "contributor_middle_name" ∧
    getField (childRec maps.sa row) "contributor_last_name" =
      getField (parse_row maps.sa row) "contributor_last_name" ∧
    getField (childRec maps.sa row) "contributor_corporation_name" =
      getField (parse_row maps.sa row) "contributor_corporation_name" := by
  refine ⟨?_, getField_childRec_other _ _ _ (by decide) (by decide),
    getField_childRec_other _ _ _ (by decide) (by decide),
    getField_childRec_other _ _ _ (by decide) (by decide),
    getField_childRec_other _ _ _ (by decide) (by decide)⟩
  simp only [processRow, hrow, String.reduceEq, reduceIte]
  simp only [create_contribution, flushBuffers_filingIds]
  rw [if_pos hadm]
  simp only [hname, htr, true_and, if_true, tagContribution, hcl]

theorem C9_witness :
    processRow mapsEx classify0 true s1Ex rowA_1 =
      some { flushBuffers s1Ex with
        contribBuf := (flushBuffers s1Ex).contribBuf ++ [childRec mapsEx.sa rowA_1] } ∧
    getField (childRec mapsEx.sa rowA_1) "contributor_first_name" =
      getField (parse_row mapsEx.sa rowA_1) "contributor_first_name" ∧
    getField (childRec mapsEx.sa rowA_1) "contributor_middle_name" =
      getField (parse_row mapsEx.sa rowA_1) "contributor_middle_name" ∧
    getField (childRec mapsEx.sa rowA_1) "contributor_last_name" =
      getField (parse_row mapsEx.sa rowA_1) "contributor_last_name" ∧
    getField (childRec mapsEx.sa rowA_1) "contributor_corporation_name" =
      getField (parse_row mapsEx.sa rowA_1) "contributor_corporation_name" :=
  C9_repeated_label_recovered mapsEx classify0 s1Ex rowA_1
    (vText "JOHN SMITH") rfl (by decide) rfl rfl rfl

/-! ## C3: the amendment resolver -/

/-- Agreement on the four columns the resolver's filters read; the updates
only write `is_amended`/`amended_by_id`, so they preserve it. -/
def sameKeys (g f : PRecord) : Prop :=
  getField g "committee_id" = getField f "committee_id" ∧
  getField g "begin_date" = getField f "begin_date" ∧
  getField g "end_date" = getField f "end_date" ∧
  getField g "form_id_number" = getField f "form_id_number"

theorem sameKeys_refl (f : PRecord) : sameKeys f f := ⟨rfl, rfl, rfl, rfl⟩

theorem targets_congr (a : PRecord) {g f : PRecord} (h : sameKeys g f) :
    targets a g = targets a f := by
  simp only [targets, h.1, h.2.1, h.2.2.1, h.2.2.2]

theorem getField_markAmended_other (f : PRecord) (v : Option Value)
    (n : String) (h1 : n ≠ "amended_by_id") (h2 : n ≠ "is_amended") :
    getField (markAmended f v) n = getField f n := by
  simp only [markAmended]
  rw [getField_setField_ne _ _ _ _ h1, getField_setField_ne _ _ _ _ h2]

theorem sameKeys_markAmended {g f : PRecord} (v : Option Value)
    (h : sameKeys g f) : sameKeys (markAmended g v) f :=
  ⟨by rw [getField_markAmended_other _ _ _ (by decide) (by decide)]; exact h.1,
   by rw [getField_markAmended_other _ _ _ (by decide) (by decide)]; exact h.2.1,
   by rw [getField_markAmended_other _ _ _ (by decide) (by decide)]; exact h.2.2.1,
   by rw [getField_markAmended_other _ _ _ (by decide) (by decide)]; exact h.2.2.2⟩

theorem getField_markAmended_isAmended (f : PRecord) (v : Option Value) :
    getField (markAmended f v) "is_amended" = some (vBool true) := by
  simp only [markAmended]
  rw [getField_setField_ne _ _ _ _ (by decide), getField_setField_same]

theorem getField_markAmended_byId (f : PRecord) (v : Option Value) :
    getField (markAmended f v) "amended_by_id" = v := by
  simp only [markAmended]
  rw [getField_setField_same]

/-- The resolver's update loop, generalised over the working list: position
`k` tracks a row agreeing with `f0` on all filter columns.  If no amending
filing in `as` targets `f0`, the row is untouched; otherwise the row ends
marked, with `amended_by_id` from the last amender in `as` that targets
`f0`. -/
theorem foldl_updOne_spec (as : List PRecord) :
    ∀ (cur : List PRecord) (k : Nat) (f0 g : PRecord),
    cur[k]? = some g →
    sameKeys g f0 →
    ((as.foldl (fun c a => updOne a c) cur).length = cur.length ∧
     (match (as.filter (fun a => targets a f0)).getLast? with
      | none => (as.foldl (fun c a => updOne a c) cur)[k]? = some g
      | some a => ∃ g',
          (as.foldl (fun c a => updOne a c) cur)[k]? = some g' ∧
          getField g' "is_amended" = some (vBool true) ∧
          getField g' "amended_by_id" = getField a "form_id_number")) := by
  induction as with
  | nil =>
    intro cur k f0 g hg _
    refine ⟨rfl, ?_⟩
    simp only [List.filter_nil, List.getLast?_nil, List.foldl_nil]
    exact hg
  | cons a as ih =>
    intro cur k f0 g hg hsk
    have hup : (updOne a cur)[k]? =
        some (if targets a g then markAmended g (getField a "form_id_number") else g) := by
      simp only [updOne, List.getElem?_map, hg, Option.map_some']
    have hlen : (updOne a cur).length = cur.length := by
      simp [updOne]
    by_cases ht : targets a f0 = true
    · have htg : targets a g = true := by rw [targets_congr a hsk]; exact ht
      have hup' : (updOne a cur)[k]? =
          some (markAmended g (getField a "form_id_number")) := by
        rw [hup, if_pos htg]
      have IH := ih (updOne a cur) k f0
        (markAmended g (getField a "form_id_number")) hup'
        (sameKeys_markAmended _ hsk)
      refine ⟨by rw [List.foldl_cons, IH.1, hlen], ?_⟩
      rw [show List.filter (fun x => targets x f0) (a :: as) =
        a :: List.filter (fun x => targets x f0) as from
        List.filter_cons_of_pos ht]
      have IH2 := IH.2
      cases hLast : (as.filter (fun a => targets a f0)).getLast? with
      | none =>
        have hnil : as.filter (fun a => targets a f0) = [] :=
          List.getLast?_eq_none_iff.mp hLast
        simp only [hLast] at IH2
        rw [hnil, List.getLast?_singleton]
        exact ⟨markAmended g (getField a "form_id_number"),
          by rw [List.foldl_cons]; exact IH2,
          getField_markAmended_isAmended _ _,
          getField_markAmended_byId _ _⟩
      | some b =>
        simp only [hLast] at IH2
        rcases hfl : as.filter (fun a => targets a f0) with _ | ⟨x, xs⟩
        · rw [hfl] at hLast
          exact absurd hLast (by simp)
        · rw [List.getLast?_cons_cons]
          rw [hfl] at hLast
          rw [hLast]
          rcases IH2 with ⟨g', hgk, hia, hby⟩
          exact ⟨g', by rw [List.foldl_cons]; exact hgk, hia, hby⟩
    · have htg : targets a g = false := by
        rw [targets_congr a hsk]
        exact Bool.not_eq_true _ ▸ (by simpa using ht)
      have hup' : (updOne a cur)[k]? = some g := by
        rw [hup, htg]
        simp
      have IH := ih (updOne a cur) k f0 g hup' hsk
      refine ⟨by rw [List.foldl_cons, IH.1, hlen], ?_⟩
      rw [show List.filter (fun x => targets x f0) (a :: as) =
        List.filter (fun x => targets x f0) as from
        List.filter_cons_of_neg (by simpa using ht)]
      have IH2 := IH.2
      cases hLast : (as.filter (fun a => targets a f0)).getLast? with
      | none =>
        simp only [hLast] at IH2
        show (List.foldl (fun c a => updOne a c) cur (a :: as))[k]? = some g
        rw [List.foldl_cons]
        exact IH2
      | some b =>
        simp only [hLast] at IH2
        show ∃ g', (List.foldl (fun c a => updOne a c) cur (a :: as))[k]? = some g' ∧
          getField g' "is_amended" = some (vBool true) ∧
          getField g' "amended_by_id" = getField b "form_id_number"
        rw [List.foldl_cons]
        exact IH2

/-- C3 (amended): after the resolver runs, a persisted filing targeted by at
least one flagged (amending) filing ends with `is_amended = true` and with
`amended_by_id` equal to the identifier of the last such amender in resolver
iteration order (so when exactly one filing amends it, that one's
identifier); a filing targeted by no amender — in particular one whose
identifier is not strictly smaller — is untouched. -/
theorem C3_amended_resolver (fs : List PRecord) (k : Nat) (hk : k < fs.length) :
    (resolveAmendments fs).length = fs.length ∧
    (match ((amenders fs).filter (fun a => targets a (fs.getD k noRec))).getLast? with
     | none => (resolveAmendments fs).getD k noRec = fs.getD k noRec
     | some a =>
       getField ((resolveAmendments fs).getD k noRec) "is_amended" =
         some (vBool true) ∧
       getField ((resolveAmendments fs).getD k noRec) "amended_by_id" =
         getField a "form_id_number") := by
  have hg : fs[k]? = some (fs.getD k noRec) := by
    rw [List.getD_eq_getElem?_getD, List.getElem?_eq_getElem hk]
    rfl
  have H := foldl_updOne_spec (amenders fs) fs k (fs.getD k noRec)
    (fs.getD k noRec) hg (sameKeys_refl _)
  have hres : resolveAmendments fs = (amenders fs).foldl (fun cur a => updOne a cur) fs := rfl
  refine ⟨by rw [hres]; exact H.1, ?_⟩
  cases hLast : ((amenders fs).filter (fun a => targets a (fs.getD k noRec))).getLast? with
  | none =>
    have H2 := H.2
    simp only [hLast] at H2
    rw [List.getD_eq_getElem?_getD, hres, H2]
    rfl
  | some a =>
    have H2 := H.2
    simp only [hLast] at H2
    rcases H2 with ⟨g', hgk, hia, hby⟩
    have hgd : (resolveAmendments fs).getD k noRec = g' := by
      rw [List.getD_eq_getElem?_getD, hres, hgk]
      rfl
    rw [hgd]
    exact ⟨hia, hby⟩

/-- Three persisted filings of one committee and period: identifiers 1, 2, 3,
with 2 and 3 flagged as amended reports. -/
def filX : PRecord :=
  ⟨[("committee_id", some (vText "E")), ("EIN", some (vText "E")),
    ("begin_date", some (vDate 2020 1 1)), ("end_date", some (vDate 2020 3 31)),
    ("form_id_number", some (vInt 1)), ("amended_report_indicator", some (vInt 0))]⟩

def filY : PRecord :=
  ⟨[("committee_id", some (vText "E")), ("EIN", some (vText "E")),
    ("begin_date", some (vDate 2020 1 1)), ("end_date", some (vDate 2020 3 31)),
    ("form_id_number", some (vInt 2)), ("amended_report_indicator", some (vInt 1))]⟩

def filZ : PRecord :=
  ⟨[("committee_id", some (vText "E")), ("EIN", some (vText "E")),
    ("begin_date", some (vDate 2020 1 1)), ("end_date", some (vDate 2020 3 31)),
    ("form_id_number", some (vInt 3)), ("amended_report_indicator", some (vInt 1))]⟩

theorem C3_witness :
    (resolveAmendments [filX, filY, filZ]).length = [filX, filY, filZ].length ∧
    (match ((amenders [filX, filY, filZ]).filter
        (fun a => targets a ([filX, filY, filZ].getD 0 noRec))).getLast? with
     | none => (resolveAmendments [filX, filY, filZ]).getD 0 noRec =
         [filX, filY, filZ].getD 0 noRec
     | some a =>
       getField ((resolveAmendments [filX, filY, filZ]).getD 0 noRec)
           "is_amended" = some (vBool true) ∧
       getField ((resolveAmendments [filX, filY, filZ]).getD 0 noRec)
           "amended_by_id" = getField a "form_id_number") :=
  C3_amended_resolver [filX, filY, filZ] 0 (by decide)

/-- The run-level database produced from three filing rows of one committee
and period, where both the second and the third filing carry the
amended-report flag. -/
def dbC3 : StoreDB :=
  (runload mapsEx classify0 false emptyStoreDB [row2_1, row2_2, row2_3]).getD
    emptyStoreDB

/-- C3 (counterexample to the claim as stated): filing 2 is an amending
filing and filing 1 qualifies (same filer, same period, strictly smaller
identifier), yet filing 1 ends the run with `amended_by_id = 3` — the later
amender's update overwrote it — not with the amending filing 2's
identifier. -/
theorem C3_counterexample :
    getField (dbC3.filings.getD 1 noRec) "amended_report_indicator" =
      some (vInt 1) ∧
    targets (dbC3.filings.getD 1 noRec) (dbC3.filings.getD 0 noRec) = true ∧
    getField (dbC3.filings.getD 1 noRec) "form_id_number" = some (vInt 2) ∧
    getField (dbC3.filings.getD 0 noRec) "amended_by_id" = some (vInt 3) ∧
    getField (dbC3.filings.getD 0 noRec) "amended_by_id" ≠
      getField (dbC3.filings.getD 1 noRec) "form_id_number" :=
  ⟨rfl, rfl, rfl, rfl, by decide⟩
